import Mathlib

/-!
# The `to_fix` node (src/to_fix.cpp)

A shallow embedding of the node that receives ENU odometry on the topic "odom" and
publishes a `NavSatFix` on "novatel/gps_fix".

* The message types (`std_msgs/Header`, `geometry_msgs/*`, `nav_msgs/Odometry`,
  `sensor_msgs/NavSatFix`) are declared in headers the file includes; they are written
  out here field by field, every field starting at its default-constructed value.
* The node never computes with a `double`: it only copies them. A `double` is therefore
  carried as its 64-bit pattern.
* `enu::point_to_fix` is declared in `enu/enu.h`; it is a parameter of every definition
  that calls it.
* A handler returns the list of messages it hands to `pub_fix.publish`, in order.
-/

namespace ToFix

/-! ## Message types -/

/-- A C++ double, identified by its IEEE-754 binary64 bit pattern. -/
structure Double where
  bits : Nat
deriving DecidableEq, Repr

instance : OfNat Double 0 := ⟨Double.mk 0⟩

instance : Inhabited Double := ⟨0⟩

/-- The ros::Time stamp of a header. -/
structure Time where
  sec : Nat := 0
  nsec : Nat := 0
deriving DecidableEq, Repr

/-- The std_msgs/Header message. -/
structure Header where
  seq : Nat := 0
  stamp : Time := {}
  frame_id : String := ""
deriving DecidableEq, Repr

/-- The geometry_msgs/Point message. -/
structure Point where
  x : Double := 0
  y : Double := 0
  z : Double := 0
deriving DecidableEq, Repr

/-- The geometry_msgs/Quaternion message. -/
structure Quaternion where
  x : Double := 0
  y : Double := 0
  z : Double := 0
  w : Double := 0
deriving DecidableEq, Repr

/-- The geometry_msgs/Pose message. -/
structure Pose where
  position : Point := {}
  orientation : Quaternion := {}
deriving DecidableEq, Repr

/-- The geometry_msgs/PoseWithCovariance message; the covariance is a row-major 6x6
matrix stored as float64[36]. -/
structure PoseWithCovariance where
  pose : Pose := {}
  covariance : Fin 36 → Double := fun _ => 0

/-- The geometry_msgs/Vector3 message. -/
structure Vector3 where
  x : Double := 0
  y : Double := 0
  z : Double := 0
deriving DecidableEq, Repr

/-- The geometry_msgs/Twist message. -/
structure Twist where
  linear : Vector3 := {}
  angular : Vector3 := {}
deriving DecidableEq, Repr

/-- The geometry_msgs/TwistWithCovariance message. -/
structure TwistWithCovariance where
  twist : Twist := {}
  covariance : Fin 36 → Double := fun _ => 0

/-- The nav_msgs/Odometry message. -/
structure Odometry where
  header : Header := {}
  child_frame_id : String := ""
  pose : PoseWithCovariance := {}
  twist : TwistWithCovariance := {}

/-- The sensor_msgs/NavSatStatus message (int8 status, uint16 service). -/
structure NavSatStatus where
  status : Int := 0
  service : Nat := 0
deriving DecidableEq, Repr

/-- The sensor_msgs/NavSatFix message; the position covariance is a row-major 3x3
matrix stored as float64[9]. -/
structure NavSatFix where
  header : Header := {}
  status : NavSatStatus := {}
  latitude : Double := 0
  longitude : Double := 0
  altitude : Double := 0
  position_covariance : Fin 9 → Double := fun _ => 0
  position_covariance_type : Nat := 0

/-- The signature of enu::point_to_fix(point_msg, datum, fix_ptr): the third argument is
the fix the routine is handed, the result is that fix after the call. -/
abbrev PointToFix := Point → NavSatFix → NavSatFix → NavSatFix

/-! ## handle_enu -/

/-- The callback handle_enu(odom_ptr, datum, pub_fix) of to_fix.cpp, lines 46-66.
The result is the list of messages passed to pub_fix.publish. -/
def handle_enu (point_to_fix : PointToFix) (odom : Odometry) (datum : NavSatFix) :
    List NavSatFix :=
  -- sensor_msgs::NavSatFix fix;
  let fix : NavSatFix := {}
  -- enu::point_to_fix(odom_ptr->pose.pose.position, datum, &fix);
  let fix := point_to_fix odom.pose.pose.position datum fix
  -- fix.header.frame_id = odom_ptr->child_frame_id;
  let fix := { fix with header := { fix.header with frame_id := odom.child_frame_id } }
  -- fix.header.stamp = odom_ptr->header.stamp;
  let fix := { fix with header := { fix.header with stamp := odom.header.stamp } }
  -- fix.position_covariance[0] = odom_ptr->pose.covariance[0];
  let fix := { fix with
    position_covariance := Function.update fix.position_covariance 0 (odom.pose.covariance 0) }
  -- fix.position_covariance[4] = odom_ptr->pose.covariance[7];
  let fix := { fix with
    position_covariance := Function.update fix.position_covariance 4 (odom.pose.covariance 7) }
  -- fix.position_covariance[8] = odom_ptr->pose.covariance[14];
  let fix := { fix with
    position_covariance := Function.update fix.position_covariance 8 (odom.pose.covariance 14) }
  -- pub_fix.publish(fix);
  [fix]

/-! ## handle_datum, main and the dispatch loop -/

/-- A ros::Publisher handle, as NodeHandle::advertise returns it. -/
structure Publisher where
  topic : String
  queue_size : Nat
deriving DecidableEq, Repr

/-- A ros::Subscriber for nav_msgs::Odometry whose callback is
boost::bind(handle_enu, _1, datum, boost::ref(pub_fix)); boost::bind stores a copy of
the datum it is given, which is the field datum. -/
structure Subscriber where
  topic : String
  queue_size : Nat
  datum : NavSatFix

/-- The registrations made through the ros::NodeHandle n of main. -/
structure NodeHandle where
  advertised : List Publisher := []
  subscribed : List Subscriber := []

/-- The call n.advertise<sensor_msgs::NavSatFix>(topic, queue_size). -/
def NodeHandle.advertise (n : NodeHandle) (topic : String) (queue_size : Nat) :
    NodeHandle × Publisher :=
  let pub : Publisher := { topic := topic, queue_size := queue_size }
  ({ n with advertised := n.advertised ++ [pub] }, pub)

/-- The call n.subscribe<nav_msgs::Odometry>(topic, queue_size,
boost::bind(handle_enu, _1, datum, boost::ref(pub_fix))). -/
def NodeHandle.subscribe (n : NodeHandle) (topic : String) (queue_size : Nat)
    (datum : NavSatFix) : NodeHandle × Subscriber :=
  let sub : Subscriber := { topic := topic, queue_size := queue_size, datum := datum }
  ({ n with subscribed := n.subscribed ++ [sub] }, sub)

/-- The state of the process: the node handle of main, the three function-local statics
of handle_datum (none until their declaration has been executed once), and the messages
published so far through pub_fix. -/
structure Node where
  n : NodeHandle := {}
  datum : Option NavSatFix := none
  pub_fix : Option Publisher := none
  sub_enu : Option Subscriber := none
  published : List NavSatFix := []

/-- The function handle_datum(datum_ptr, n) of to_fix.cpp, lines 68-76. A static local
is initialised the first time control passes through its declaration, and its
initialiser is not evaluated again. -/
def handle_datum (datum_ptr : NavSatFix) (s : Node) : Node :=
  -- static sensor_msgs::NavSatFix datum(*datum_ptr);
  let datum : NavSatFix :=
    match s.datum with
    | some d => d
    | none => datum_ptr
  let s := { s with datum := some datum }
  -- static ros::Publisher pub_fix = n.advertise<sensor_msgs::NavSatFix>("novatel/gps_fix", 5);
  let s :=
    match s.pub_fix with
    | some _ => s
    | none =>
      let r := s.n.advertise "novatel/gps_fix" 5
      { s with n := r.1, pub_fix := some r.2 }
  -- static ros::Subscriber sub_enu = n.subscribe<nav_msgs::Odometry>("odom", 5,
  --     boost::bind(handle_enu, _1, datum, boost::ref(pub_fix)));
  match s.sub_enu with
  | some _ => s
  | none =>
    let r := s.n.subscribe "odom" 5 datum
    { s with n := r.1, sub_enu := some r.2 }

/-- A message arriving at the node: the topic it arrives on and its payload. -/
inductive Message where
  | odometry (topic : String) (msg : Odometry)
  | nav_sat_fix (topic : String) (msg : NavSatFix)

/-- One callback round of ros::spin for one incoming message. Every subscription the
program registers is an Odometry subscription whose callback is handle_enu bound to
the subscription's datum, so an Odometry message is handed to the subscriptions on its
topic and a NavSatFix message finds no subscription. -/
def deliver (point_to_fix : PointToFix) (m : Message) (s : Node) : Node :=
  match m with
  | Message.odometry topic odom =>
    { s with
      published := s.published ++
        ((s.n.subscribed.filter (fun sub => sub.topic = topic)).map
          (fun sub => handle_enu point_to_fix odom sub.datum)).flatten }
  | Message.nav_sat_fix _ _ => s

/-- The loop ros::spin() over the messages that arrive, in order. -/
def spin (point_to_fix : PointToFix) (incoming : List Message) (s : Node) : Node :=
  incoming.foldl (fun s m => deliver point_to_fix m s) s

/-- The function main of to_fix.cpp, lines 78-88, run on the messages that arrive
while it spins. -/
def main (point_to_fix : PointToFix) (incoming : List Message) : Node :=
  -- ros::NodeHandle n;
  let s : Node := {}
  -- sensor_msgs::NavSatFixConstPtr datum_ptr(new sensor_msgs::NavSatFix);
  let datum_ptr : NavSatFix := {}
  -- handle_datum(datum_ptr, boost::ref(n));
  let s := handle_datum datum_ptr s
  -- ros::spin();
  spin point_to_fix incoming s

/-- The datums bound into the registered handle_enu callbacks. -/
def bound_datums (s : Node) : List NavSatFix :=
  s.n.subscribed.map Subscriber.datum

/-- The Odometry messages among the incoming ones that arrive on the given topic, in
order of arrival. -/
def odometry_on (topic : String) (incoming : List Message) : List Odometry :=
  incoming.filterMap (fun m =>
    match m with
    | Message.odometry t odom => if t = topic then some odom else none
    | Message.nav_sat_fix _ _ => none)

/-! ## Properties of the conversion routine and concrete data -/

/-- The conversion routine writes only latitude, longitude and altitude of the fix it is
handed: every other field of the result is the field of the argument. -/
def WritesOnlyLLH (point_to_fix : PointToFix) : Prop :=
  ∀ (p : Point) (datum fix : NavSatFix),
    point_to_fix p datum fix =
      { fix with
        latitude := (point_to_fix p datum fix).latitude
        longitude := (point_to_fix p datum fix).longitude
        altitude := (point_to_fix p datum fix).altitude }

/-- A stand-in for the conversion routine at concrete inputs: it writes latitude,
longitude and altitude from the point and the datum and nothing else. -/
def sample_point_to_fix : PointToFix := fun p datum fix =>
  { fix with
    latitude := Double.mk (datum.latitude.bits + p.y.bits)
    longitude := Double.mk (datum.longitude.bits + p.x.bits)
    altitude := Double.mk (datum.altitude.bits + p.z.bits) }

/-- A stand-in for a conversion routine that also writes the covariance and the header
of the fix it is handed. -/
def noisy_point_to_fix : PointToFix := fun p datum _ =>
  { header := { seq := 9, stamp := { sec := 1, nsec := 2 }, frame_id := "wgs84" }
    latitude := datum.latitude
    longitude := p.x
    altitude := p.z
    position_covariance := fun _ => Double.mk 77 }

/-- A datum with non-zero latitude, longitude and altitude. -/
def sample_datum : NavSatFix :=
  { latitude := Double.mk 43, longitude := Double.mk 80, altitude := Double.mk 300 }

/-- An odometry message with a full pose covariance. -/
def sample_odom : Odometry :=
  { header := { seq := 3, stamp := { sec := 100, nsec := 5 }, frame_id := "odom" }
    child_frame_id := "base_link"
    pose :=
      { pose := { position := { x := Double.mk 1, y := Double.mk 2, z := Double.mk 3 } }
        covariance := fun i => Double.mk (i.val + 10) } }

/-- An odometry message that agrees with sample_odom on the position, child_frame_id,
header.stamp and pose covariance entries 0, 7 and 14, and differs everywhere else. -/
def sample_odom_other : Odometry :=
  { header := { seq := 8, stamp := { sec := 100, nsec := 5 }, frame_id := "map" }
    child_frame_id := "base_link"
    pose :=
      { pose :=
          { position := { x := Double.mk 1, y := Double.mk 2, z := Double.mk 3 }
            orientation := { w := Double.mk 1 } }
        covariance := fun i =>
          if i.val = 0 ∨ i.val = 7 ∨ i.val = 14 then Double.mk (i.val + 10) else Double.mk 55 }
    twist :=
      { twist := { linear := { x := Double.mk 4 } }
        covariance := fun _ => Double.mk 6 } }

/-! ## Theorems about handle_enu -/

/-- Claim C1: for every conversion routine, odometry message and datum, the fix
published by handle_enu has position covariance diagonal entry 3*i+i equal to pose
covariance entry 6*i+i of the input for i = 0, 1, 2; that is, output entries 0, 4, 8
are input entries 0, 7, 14, whatever the conversion routine wrote into the fix. -/
theorem handle_enu_covariance_diagonal (point_to_fix : PointToFix) (odom : Odometry)
    (datum : NavSatFix) :
    (∀ i : Fin 3,
      (handle_enu point_to_fix odom datum).map
          (fun f => f.position_covariance ⟨3 * i.val + i.val, by omega⟩) =
        [odom.pose.covariance ⟨6 * i.val + i.val, by omega⟩]) ∧
    (handle_enu point_to_fix odom datum).map
        (fun f => (f.position_covariance 0, f.position_covariance 4,
          f.position_covariance 8)) =
      [(odom.pose.covariance 0, odom.pose.covariance 7, odom.pose.covariance 14)] := by
  refine ⟨?_, ?_⟩
  · intro i
    fin_cases i <;> simp [handle_enu, Function.update]
  · simp [handle_enu, Function.update]

/-- The stand-in conversion routine writes only latitude, longitude and altitude. -/
theorem sample_point_to_fix_writes_only_llh : WritesOnlyLLH sample_point_to_fix := by
  intro p datum fix
  rfl

/-- Claim C2: when the conversion routine writes only latitude, longitude and altitude
of the default-constructed fix it is handed, the six off-diagonal entries 1, 2, 3, 5,
6, 7 of the published position covariance are zero for every odometry message and
datum, whatever the cross-covariance entries of the input are. -/
theorem handle_enu_covariance_off_diagonal (point_to_fix : PointToFix)
    (h : WritesOnlyLLH point_to_fix) (odom : Odometry) (datum : NavSatFix) :
    (handle_enu point_to_fix odom datum).map
        (fun f => [f.position_covariance 1, f.position_covariance 2,
          f.position_covariance 3, f.position_covariance 5,
          f.position_covariance 6, f.position_covariance 7]) =
      [[0, 0, 0, 0, 0, 0]] := by
  have hc : (point_to_fix odom.pose.pose.position datum {}).position_covariance =
      fun _ => 0 := by
    have := congrArg NavSatFix.position_covariance (h odom.pose.pose.position datum {})
    simpa using this
  simp [handle_enu, Function.update, hc]

/-- Witness of claim C2 at the stand-in conversion routine, sample_odom (whose pose
covariance has no zero entry) and sample_datum. -/
theorem handle_enu_covariance_off_diagonal_witness :
    WritesOnlyLLH sample_point_to_fix ∧
    (handle_enu sample_point_to_fix sample_odom sample_datum).map
        (fun f => [f.position_covariance 1, f.position_covariance 2,
          f.position_covariance 3, f.position_covariance 5,
          f.position_covariance 6, f.position_covariance 7]) =
      [[0, 0, 0, 0, 0, 0]] :=
  ⟨sample_point_to_fix_writes_only_llh,
    handle_enu_covariance_off_diagonal sample_point_to_fix
      sample_point_to_fix_writes_only_llh sample_odom sample_datum⟩

/-- Claim C3, evaluated on the code at a failing input: the comment in handle_enu says
the output fix uses the input message frame_id, yet for sample_odom, whose
header.frame_id is "odom" and whose child_frame_id is "base_link", the published fix
carries the frame identifier "base_link", which is not the frame identifier of the
input header. -/
theorem handle_enu_frame_id_not_header :
    sample_odom.header.frame_id = "odom" ∧
    sample_odom.child_frame_id = "base_link" ∧
    (handle_enu sample_point_to_fix sample_odom sample_datum).map
        (fun f => f.header.frame_id) = ["base_link"] ∧
    (handle_enu sample_point_to_fix sample_odom sample_datum).map
        (fun f => f.header.frame_id) ≠ [sample_odom.header.frame_id] := by
  refine ⟨rfl, rfl, rfl, ?_⟩
  decide

/-- Claim C4: for every conversion routine, odometry message and datum, the header
timestamp of the published fix is the header timestamp of the odometry message. -/
theorem handle_enu_stamp (point_to_fix : PointToFix) (odom : Odometry)
    (datum : NavSatFix) :
    (handle_enu point_to_fix odom datum).map (fun f => f.header.stamp) =
      [odom.header.stamp] := by
  simp [handle_enu]

/-- Claim C5: the latitude, longitude and altitude of the published fix are those the
conversion routine produces for the position of the odometry message and the datum on
a default-constructed fix, and two odometry messages with the same position give the
same latitude, longitude and altitude. -/
theorem handle_enu_llh (point_to_fix : PointToFix) (odom : Odometry) (datum : NavSatFix) :
    (handle_enu point_to_fix odom datum).map
        (fun f => (f.latitude, f.longitude, f.altitude)) =
      [((point_to_fix odom.pose.pose.position datum {}).latitude,
        (point_to_fix odom.pose.pose.position datum {}).longitude,
        (point_to_fix odom.pose.pose.position datum {}).altitude)] ∧
    ∀ other : Odometry, other.pose.pose.position = odom.pose.pose.position →
      (handle_enu point_to_fix other datum).map
          (fun f => (f.latitude, f.longitude, f.altitude)) =
        (handle_enu point_to_fix odom datum).map
          (fun f => (f.latitude, f.longitude, f.altitude)) := by
  refine ⟨by simp [handle_enu], ?_⟩
  intro other hpos
  simp [handle_enu, hpos]

/-- Witness of claim C5 at the stand-in conversion routine: sample_odom_other has the
position of sample_odom and differs from it in its header, orientation, twist and
covariance. -/
theorem handle_enu_llh_witness :
    sample_odom_other.pose.pose.position = sample_odom.pose.pose.position ∧
    sample_odom_other.header.frame_id ≠ sample_odom.header.frame_id ∧
    (handle_enu sample_point_to_fix sample_odom_other sample_datum).map
        (fun f => (f.latitude, f.longitude, f.altitude)) =
      (handle_enu sample_point_to_fix sample_odom sample_datum).map
        (fun f => (f.latitude, f.longitude, f.altitude)) :=
  ⟨rfl, by decide,
    (handle_enu_llh sample_point_to_fix sample_odom sample_datum).2 sample_odom_other rfl⟩

/-- Claim C8: for every conversion routine, odometry message and datum, one call of
handle_enu publishes exactly one message. -/
theorem handle_enu_publishes_once (point_to_fix : PointToFix) (odom : Odometry)
    (datum : NavSatFix) :
    (handle_enu point_to_fix odom datum).length = 1 := by
  simp [handle_enu]

/-- Claim C10: for every conversion routine and datum, two odometry messages that
agree on pose.pose.position, child_frame_id, header.stamp and pose covariance entries
0, 7 and 14 make handle_enu publish the same messages. -/
theorem handle_enu_noninterference (point_to_fix : PointToFix) (datum : NavSatFix)
    (o1 o2 : Odometry)
    (hpos : o1.pose.pose.position = o2.pose.pose.position)
    (hchild : o1.child_frame_id = o2.child_frame_id)
    (hstamp : o1.header.stamp = o2.header.stamp)
    (h0 : o1.pose.covariance 0 = o2.pose.covariance 0)
    (h7 : o1.pose.covariance 7 = o2.pose.covariance 7)
    (h14 : o1.pose.covariance 14 = o2.pose.covariance 14) :
    handle_enu point_to_fix o1 datum = handle_enu point_to_fix o2 datum := by
  simp only [handle_enu, hpos, hchild, hstamp, h0, h7, h14]

/-- Witness of claim C10: sample_odom and sample_odom_other agree on the six inputs
and differ in header.frame_id, header.seq, orientation, twist and the other covariance
entries; the conversion routine used writes the covariance and the header as well. -/
theorem handle_enu_noninterference_witness :
    sample_odom.pose.pose.position = sample_odom_other.pose.pose.position ∧
    sample_odom.child_frame_id = sample_odom_other.child_frame_id ∧
    sample_odom.header.stamp = sample_odom_other.header.stamp ∧
    sample_odom.pose.covariance 0 = sample_odom_other.pose.covariance 0 ∧
    sample_odom.pose.covariance 7 = sample_odom_other.pose.covariance 7 ∧
    sample_odom.pose.covariance 14 = sample_odom_other.pose.covariance 14 ∧
    sample_odom.header.frame_id ≠ sample_odom_other.header.frame_id ∧
    sample_odom.header.seq ≠ sample_odom_other.header.seq ∧
    sample_odom.pose.pose.orientation ≠ sample_odom_other.pose.pose.orientation ∧
    sample_odom.twist.twist ≠ sample_odom_other.twist.twist ∧
    sample_odom.twist.covariance 0 ≠ sample_odom_other.twist.covariance 0 ∧
    sample_odom.pose.covariance 1 ≠ sample_odom_other.pose.covariance 1 ∧
    handle_enu noisy_point_to_fix sample_odom sample_datum =
      handle_enu noisy_point_to_fix sample_odom_other sample_datum :=
  ⟨rfl, rfl, rfl, rfl, rfl, rfl,
    by decide, by decide, by decide, by decide, by decide, by decide,
    handle_enu_noninterference noisy_point_to_fix sample_datum sample_odom
      sample_odom_other rfl rfl rfl rfl rfl rfl⟩

/-! ## Theorems about handle_datum and main -/

/-- The state after the first call of handle_datum in a new process. -/
theorem handle_datum_first (d : NavSatFix) :
    handle_datum d {} =
      { n := { advertised := [{ topic := "novatel/gps_fix", queue_size := 5 }]
               subscribed := [{ topic := "odom", queue_size := 5, datum := d }] }
        datum := some d
        pub_fix := some { topic := "novatel/gps_fix", queue_size := 5 }
        sub_enu := some { topic := "odom", queue_size := 5, datum := d }
        published := [] } := rfl

/-- Delivering a message never changes the registrations or the statics. -/
theorem deliver_keeps (point_to_fix : PointToFix) (m : Message) (s : Node) :
    (deliver point_to_fix m s).n = s.n ∧ (deliver point_to_fix m s).datum = s.datum ∧
    (deliver point_to_fix m s).pub_fix = s.pub_fix ∧
    (deliver point_to_fix m s).sub_enu = s.sub_enu := by
  cases m <;> simp [deliver]

/-- While the only subscription is the one handle_datum registers with datum d, the
loop publishes one conversion against d per Odometry message on "odom". -/
theorem spin_single_subscription (point_to_fix : PointToFix) (d : NavSatFix)
    (incoming : List Message) (s : Node)
    (hs : s.n.subscribed = [{ topic := "odom", queue_size := 5, datum := d }]) :
    (spin point_to_fix incoming s).n = s.n ∧
    (spin point_to_fix incoming s).published =
      s.published ++
        ((odometry_on "odom" incoming).map (fun o => handle_enu point_to_fix o d)).flatten := by
  induction incoming generalizing s with
  | nil => simp [spin, odometry_on]
  | cons m rest ih =>
    have hk := (deliver_keeps point_to_fix m s).1
    have hrest := ih (deliver point_to_fix m s) (by rw [hk]; exact hs)
    have hspin : spin point_to_fix (m :: rest) s =
        spin point_to_fix rest (deliver point_to_fix m s) := rfl
    rw [hspin, hrest.1, hrest.2, hk]
    refine ⟨rfl, ?_⟩
    cases m with
    | odometry t odom =>
      by_cases ht : t = "odom"
      · subst ht
        simp [deliver, odometry_on, hs, List.append_assoc]
      · have ht2 : ¬ ("odom" = t) := fun h => ht h.symm
        simp [deliver, odometry_on, hs, ht, ht2]
    | nav_sat_fix t msg => simp [deliver, odometry_on]

/-- Odometry messages that all arrive on one topic are the Odometry messages on that
topic. -/
theorem odometry_on_map (topic : String) (odoms : List Odometry) :
    odometry_on topic (odoms.map (Message.odometry topic)) = odoms := by
  induction odoms with
  | nil => rfl
  | cons o rest ih =>
    have hstep : odometry_on topic ((o :: rest).map (Message.odometry topic)) =
        o :: odometry_on topic (rest.map (Message.odometry topic)) := by
      simp [odometry_on]
    rw [hstep, ih]

/-- Claim C6 as stated fails: main has run its start-up, a datum message carrying
sample_datum (latitude 43) arrives, then sample_odom arrives on "odom". The fix that
is published has the latitude of a conversion against the zero datum, not the one of
a conversion against sample_datum, and the datum bound into the callback is not
sample_datum; a further direct call of handle_datum with sample_datum does not bind it
either. -/
theorem datum_message_not_used :
    (main sample_point_to_fix
        [Message.nav_sat_fix "enu_datum" sample_datum,
          Message.odometry "odom" sample_odom]).published.map NavSatFix.latitude =
      [Double.mk 2] ∧
    (handle_enu sample_point_to_fix sample_odom sample_datum).map NavSatFix.latitude =
      [Double.mk 45] ∧
    (main sample_point_to_fix
        [Message.nav_sat_fix "enu_datum" sample_datum,
          Message.odometry "odom" sample_odom]).published ≠
      handle_enu sample_point_to_fix sample_odom sample_datum ∧
    (bound_datums (main sample_point_to_fix
        [Message.nav_sat_fix "enu_datum" sample_datum])).map NavSatFix.latitude =
      [Double.mk 0] ∧
    (bound_datums (handle_datum sample_datum (main sample_point_to_fix []))).map
        NavSatFix.latitude = [Double.mk 0] := by
  refine ⟨rfl, rfl, ?_, rfl, rfl⟩
  intro h
  have hl := congrArg (List.map NavSatFix.latitude) h
  revert hl
  decide

/-- Claim C6 as amended: main runs the dispatch loop from the state its start-up call
of handle_datum leaves, and after the first call of handle_datum in the process, made
with reference position d, the datum bound into the handle_enu callback is d, and for
every sequence of messages that arrive afterwards, datum messages included, the fixes
published are the conversions against d of the Odometry messages on "odom", in
order. -/
theorem first_datum_is_used (point_to_fix : PointToFix) (d : NavSatFix)
    (incoming : List Message) :
    main point_to_fix incoming = spin point_to_fix incoming (handle_datum {} {}) ∧
    bound_datums (spin point_to_fix incoming (handle_datum d {})) = [d] ∧
    (spin point_to_fix incoming (handle_datum d {})).published =
      ((odometry_on "odom" incoming).map
        (fun o => handle_enu point_to_fix o d)).flatten := by
  have h := spin_single_subscription point_to_fix d incoming (handle_datum d {})
    (by rw [handle_datum_first])
  refine ⟨rfl, ?_, ?_⟩
  · rw [bound_datums, h.1, handle_datum_first]
    rfl
  · rw [h.2, handle_datum_first]
    rfl

/-- Claim C7: in a run of main in which only Odometry messages arrive on "odom", the
datum bound into handle_enu by the start-up call of handle_datum is the
default-constructed NavSatFix, whose latitude, longitude and altitude are zero, and
every Odometry message is converted against it. -/
theorem main_uses_zero_datum (point_to_fix : PointToFix) (odoms : List Odometry) :
    bound_datums (main point_to_fix (odoms.map (Message.odometry "odom"))) = [{}] ∧
    (({} : NavSatFix).latitude = 0 ∧ ({} : NavSatFix).longitude = 0 ∧
      ({} : NavSatFix).altitude = 0) ∧
    (main point_to_fix (odoms.map (Message.odometry "odom"))).published =
      (odoms.map (fun o => handle_enu point_to_fix o {})).flatten := by
  have h := spin_single_subscription point_to_fix {}
    (odoms.map (Message.odometry "odom")) (handle_datum {} {})
    (by rw [handle_datum_first])
  have hodoms := odometry_on_map "odom" odoms
  have hmain : main point_to_fix (odoms.map (Message.odometry "odom")) =
      spin point_to_fix (odoms.map (Message.odometry "odom")) (handle_datum {} {}) := rfl
  refine ⟨?_, ⟨rfl, rfl, rfl⟩, ?_⟩
  · rw [hmain, bound_datums, h.1, handle_datum_first]
    rfl
  · rw [hmain, h.2, hodoms, handle_datum_first]
    rfl

/-- Claim C9: from every state, calling handle_datum with d1 and then with d2 leaves
the state that calling it with d1 alone leaves; in a new process the datum bound into
handle_enu after both calls is d1, and one publisher and one subscription are
registered. -/
theorem handle_datum_one_shot (s : Node) (d1 d2 : NavSatFix) :
    handle_datum d2 (handle_datum d1 s) = handle_datum d1 s ∧
    bound_datums (handle_datum d2 (handle_datum d1 {})) = [d1] ∧
    (handle_datum d2 (handle_datum d1 {})).datum = some d1 ∧
    (handle_datum d2 (handle_datum d1 {})).n.advertised.length = 1 ∧
    (handle_datum d2 (handle_datum d1 {})).n.subscribed.length = 1 := by
  refine ⟨?_, rfl, rfl, rfl, rfl⟩
  obtain ⟨n, datum, pub_fix, sub_enu, published⟩ := s
  cases datum <;> cases pub_fix <;> cases sub_enu <;> rfl

end ToFix
